import Mathlib

/-!
Verification of the mphys coupling framework specification.

The repository ships two example driver scripts and one unit test
(`tests/unit_tests/test_meld.py`); the coupling core itself (builders,
scenario graph, the MELD transfer scheme, the nonlinear/linear coupling
solvers) lives outside the shipped sources, so those parts are modelled
from the specification text and marked as such in their doc comments.
All real arithmetic is embedded over `ℚ` (exact arithmetic): equalities
that the spec states "within floating-point tolerance" hold exactly in
the model, which is in particular within every positive tolerance.
-/

namespace Mphys

open Matrix

/-- Modelled from the spec: the Transfer Scheme contract of §4.1 / §6
(`mphys.mphys_meld.MeldBuilder`'s transfer elements are not under the
shipped sources).  A transfer scheme holds the reference aerodynamic
surface coordinates `x_a0` (flattened, `na` scalar dofs) and the
precomputed linearized transfer map (the TransferMap of §3, e.g.
radial-basis-function weights), an `na × ns` matrix acting on the
flattened structural displacement field. -/
structure TransferScheme (na ns : ℕ) where
  x_a0 : Fin na → ℚ
  map : Matrix (Fin na) (Fin ns) ℚ

/-- Modelled from the spec: `transfer_displacements(u_s) -> x_a`,
the deformed aerodynamic surface `x_a = f(x_a0, u_s)` with
`u_a = f(x_a0, u_s) - x_a0` the linearized transferred displacement. -/
def transfer_displacements {na ns : ℕ} (T : TransferScheme na ns)
    (u_s : Fin ns → ℚ) : Fin na → ℚ :=
  T.x_a0 + T.map *ᵥ u_s

/-- Modelled from the spec: `transfer_loads(f_a) -> f_s`, the
adjoint-consistent load transfer, the transpose of the linearized
displacement transfer applied to the aerodynamic load field. -/
def transfer_loads {na ns : ℕ} (T : TransferScheme na ns)
    (f_a : Fin na → ℚ) : Fin ns → ℚ :=
  T.mapᵀ *ᵥ f_a

/-- Relative error as used by the validation checks of §8:
`|a - b| / max(1, |b|)`. -/
def relErr (a b : ℚ) : ℚ := |a - b| / max 1 |b|

/-- Modelled from the spec: forward (tangent) mode of the Linear Coupling
Solver (§4.5, not under the shipped sources) recovers the total
derivative of output `i` with respect to input `j` by propagating the
basis perturbation `e_j` forward through the linearized coupling map `J`. -/
def tangentDerivative {m n : ℕ} (J : Matrix (Fin m) (Fin n) ℚ)
    (i : Fin m) (j : Fin n) : ℚ :=
  (J *ᵥ Pi.single j 1) i

/-- Modelled from the spec: reverse (adjoint) mode of the Linear Coupling
Solver (§4.5, not under the shipped sources) recovers the same total
derivative by propagating the output seed `e_i` backward through the
transposed coupling map. -/
def adjointDerivative {m n : ℕ} (J : Matrix (Fin m) (Fin n) ℚ)
    (i : Fin m) (j : Fin n) : ℚ :=
  (Pi.single i 1 ᵥ* J) j

/-- Modelled from the spec: solver tolerance options of §6 as configured
in `run_analysis.py` (`rtol`, `atol`, `maxiter`); the solver itself
(§4.4) is not under the shipped sources. -/
structure SolverOptions where
  rtol : ℚ
  atol : ℚ
  maxiter : ℕ

/-- Modelled from the spec: the convergence criterion of §4.4,
`r < rtol * r0 OR r < atol`, where `r0` is the initial residual norm. -/
def convergedQ (opts : SolverOptions) (r0 r : ℚ) : Bool :=
  decide (r < opts.rtol * r0) || decide (r < opts.atol)

/-- Modelled from the spec: the states of the Nonlinear Coupling Solver
state machine of §4.4. -/
inductive SolverState where
  | idle : SolverState
  | iterating (iter : ℕ) (r : ℚ) : SolverState
  | converged (iter : ℕ) (r : ℚ) : SolverState
  | maxIterExceeded (iter : ℕ) (r : ℚ) : SolverState
deriving DecidableEq

/-- Modelled from the spec: one transition of the §4.4 state machine from
an `iterating` state, given the residual norm `rNew` of the iteration
just completed: move to `converged` when the convergence criterion holds,
to `maxIterExceeded` when the iteration cap is reached without
convergence, and keep `iterating` otherwise.  Non-iterating states are
terminal. -/
def stepState (opts : SolverOptions) (r0 : ℚ) (s : SolverState)
    (rNew : ℚ) : SolverState :=
  match s with
  | .iterating i _ =>
      if convergedQ opts r0 rNew then .converged (i + 1) rNew
      else if i + 1 ≥ opts.maxiter then .maxIterExceeded (i + 1) rNew
      else .iterating (i + 1) rNew
  | s => s

/-- The outcome of a nonlinear coupling solve, reported to the caller:
either success or a structured `ConvergenceFailure` carrying the residual
trace (§7). -/
inductive SolveOutcome where
  | success (trace : List ℚ) : SolveOutcome
  | convergenceFailure (iter : ℕ) (trace : List ℚ) : SolveOutcome
deriving DecidableEq

/-- Modelled from the spec: the iteration loop of §4.4 over an abstract
residual-norm sequence `res` (the residual after each coupled iteration),
accumulating the residual trace; `fuel` iterations remain, `i` iterations
have been taken, `trace` is the reversed trace so far. -/
def solveLoop (opts : SolverOptions) (r0 : ℚ) (res : ℕ → ℚ) :
    ℕ → ℕ → List ℚ → SolveOutcome
  | 0, i, trace => .convergenceFailure i trace.reverse
  | fuel + 1, i, trace =>
      let r := res i
      if convergedQ opts r0 r then .success (r :: trace).reverse
      else solveLoop opts r0 res fuel (i + 1) (r :: trace)

/-- Modelled from the spec: run the Nonlinear Coupling Solver of §4.4
for at most `opts.maxiter` iterations. -/
def runSolve (opts : SolverOptions) (r0 : ℚ) (res : ℕ → ℚ) : SolveOutcome :=
  solveLoop opts r0 res opts.maxiter 0 []

/-- Modelled from the spec: the ConfigurationError taxonomy of §7
(graph miswiring, shape mismatch, builder used before initialization);
the scenario-graph and builder code is not under the shipped sources. -/
inductive ConfigurationError where
  | singleWriterViolation : ConfigurationError
  | shapeMismatch : ConfigurationError
  | builderNotInitialized : ConfigurationError
deriving DecidableEq

/-- Modelled from the spec: the ScenarioGraph of §3/§4.3 — a table of
CouplingVariable bindings (variable name ↦ producer unit) together with
the directed producer→consumer edges. -/
structure ScenarioGraph where
  bindings : List (String × String)
  edges : List (String × String)
deriving DecidableEq

/-- The producer unit currently bound to coupling-variable name `v`,
if any. -/
def producerOf (g : ScenarioGraph) (v : String) : Option String :=
  (g.bindings.find? (fun p => p.1 == v)).map Prod.snd

/-- Modelled from the spec: `connect(producer_var, consumer_vars)` of
§4.3 establishes a CouplingVariable edge and fails if the variable is
already bound to a different producer (single-writer invariant). -/
def connect (g : ScenarioGraph) (producerUnit v : String)
    (consumerUnits : List String) : Except ConfigurationError ScenarioGraph :=
  match producerOf g v with
  | some p =>
      if p = producerUnit then
        .ok { g with edges := g.edges ++ consumerUnits.map (fun c => (v, c)) }
      else .error .singleWriterViolation
  | none =>
      .ok { bindings := (v, producerUnit) :: g.bindings
            edges := g.edges ++ consumerUnits.map (fun c => (v, c)) }

/-- State-passing form of `connect`: on failure the original graph is
returned untouched (atomicity on failure). -/
def connectRun (g : ScenarioGraph) (producerUnit v : String)
    (consumerUnits : List String) :
    Except ConfigurationError Unit × ScenarioGraph :=
  match connect g producerUnit v consumerUnits with
  | .ok g2 => (.ok (), g2)
  | .error e => (.error e, g)

/-- Modelled from the spec: the parallel communicator handle passed to a
Builder (§4.2, §6); the builder code is not under the shipped sources. -/
structure Comm where
  rank : ℕ

/-- Modelled from the spec: the internal discipline solver state a
Builder constructs when initialized with a communicator. -/
structure DisciplineState where
  commRank : ℕ

/-- Modelled from the spec: a discipline Builder (§4.2) carrying its
discipline metadata (node count, dofs per node) and the internal solver
state, present only after initialization. -/
structure Builder where
  nnodes : ℕ
  ndof : ℕ
  solverState : Option DisciplineState

/-- Modelled from the spec: a coupling unit produced by a Builder. -/
structure CouplingUnit where
  nnodes : ℕ
  ndof : ℕ
  commRank : ℕ

/-- Modelled from the spec: `initialize(communicator)` of §4.2 — called
`init` here — constructs the Builder's internal solver state. -/
def Builder.init (b : Builder) (c : Comm) : Builder :=
  { b with solverState := some ⟨c.rank⟩ }

/-- Modelled from the spec: `get_coupling_unit` of §4.2; requesting a
coupling unit before initialization signals a configuration error. -/
def get_coupling_unit (b : Builder) : Except ConfigurationError CouplingUnit :=
  match b.solverState with
  | none => .error .builderNotInitialized
  | some s => .ok ⟨b.nnodes, b.ndof, s.commRank⟩

/-- Modelled from the spec: one scenario's entry in the multipoint graph,
carrying its name and its own coupled state vector (§3 ScenarioGraph /
ConvergenceState ownership; the `Multipoint` / `mphys_add_scenario` code
is not under the shipped sources). -/
structure ScenarioEntry where
  name : String
  coupledState : List ℚ
deriving DecidableEq

/-- Modelled from the spec: a multipoint model as configured in
`run_analysis.py` — one aerodynamic, one structural and one
load-transfer Builder shared by all scenarios, plus the per-scenario
entries. -/
structure MultipointGraph where
  aeroBuilder : Builder
  structBuilder : Builder
  ldxferBuilder : Builder
  scenarios : List ScenarioEntry

/-- Modelled from the spec: the fresh per-scenario coupled state
`(x_a, u_s)` (§4.4), sized from the shared discipline metadata and
initialized to zero. -/
def freshScenarioState (aero structural : Builder) : List ℚ :=
  List.replicate (3 * aero.nnodes + structural.ndof * structural.nnodes) 0

/-- Modelled from the spec: `mphys_add_scenario` as called in
`run_analysis.py` — appends a new scenario with its own fresh coupled
state, leaving the shared Builders untouched. -/
def mphys_add_scenario (g : MultipointGraph) (name : String) :
    MultipointGraph :=
  { g with scenarios := g.scenarios ++
      [⟨name, freshScenarioState g.aeroBuilder g.structBuilder⟩] }

/-- Overwrite the coupled state of the scenario named `name` (a coupled
solve mutating one scenario's state). -/
def setScenarioState (g : MultipointGraph) (name : String) (st : List ℚ) :
    MultipointGraph :=
  { g with
      scenarios := g.scenarios.map
        (fun s => if s.name = name then ⟨s.name, st⟩ else s) }

/-- The coupled state currently held by the scenario named `name`. -/
def scenarioState (g : MultipointGraph) (name : String) : Option (List ℚ) :=
  (g.scenarios.find? (fun s => s.name == name)).map ScenarioEntry.coupledState

/-- The two-scenario multipoint model of `run_analysis.py`: two scenarios
added to a fresh multipoint graph sharing the same three Builders. -/
def twoScenarioGraph (ab sb xb : Builder) (n1 n2 : String) :
    MultipointGraph :=
  mphys_add_scenario (mphys_add_scenario ⟨ab, sb, xb, []⟩ n1) n2

/-- From `test_meld.py`: `meld_options = {isym: 1, n: 200, beta: 0.5}` —
the kernel width parameter `beta`. -/
def meldBeta : ℚ := 1 / 2

/-- Coordinate `c` of node `p` of a flattened 4-node mesh vector
(12 scalars, 3 per node), the layout used by the fake components of
`test_meld.py`. -/
def nodeCoord (x : Fin 12 → ℚ) (p : Fin 4) (c : Fin 3) : ℚ :=
  x ⟨3 * p.val + c.val, by have := p.isLt; have := c.isLt; omega⟩

/-- Squared distance between aerodynamic node `p` and structural node
`q`. -/
def dist2 (xa xs : Fin 12 → ℚ) (p q : Fin 4) : ℚ :=
  ∑ c : Fin 3, (nodeCoord xa p c - nodeCoord xs q c) ^ 2

/-- Modelled from the spec: a regularized radial-basis-function weight
between an aerodynamic and a structural node (§3 TransferMap; the MELD
kernel itself is not under the shipped sources).  The `1 +` regularizer
keeps the weight finite for degenerate/duplicate nodes (§4.1). -/
def rbfWeight (xa xs : Fin 12 → ℚ) (p q : Fin 4) : ℚ :=
  1 / (1 + meldBeta * dist2 xa xs p q)

/-- Sum of the weights attached to aerodynamic node `p`. -/
def weightSum (xa xs : Fin 12 → ℚ) (p : Fin 4) : ℚ :=
  ∑ q : Fin 4, rbfWeight xa xs p q

/-- Normalized interpolation weight from structural node `q` to
aerodynamic node `p`. -/
def normWeight (xa xs : Fin 12 → ℚ) (p q : Fin 4) : ℚ :=
  rbfWeight xa xs p q / weightSum xa xs p

/-- Modelled from the spec: the precomputed TransferMap (§3) for the
4-node test meshes — the 12×12 linearized displacement-transfer matrix,
acting componentwise on each of the 3 coordinate directions. -/
def dispMatrix (xa xs : Fin 12 → ℚ) : Matrix (Fin 12) (Fin 12) ℚ :=
  fun i j =>
    if i.val % 3 = j.val % 3 then
      normWeight xa xs ⟨i.val / 3, by have := i.isLt; omega⟩
        ⟨j.val / 3, by have := j.isLt; omega⟩
    else 0

/-- Twelve consecutive values of the pseudo-random stream starting at
`offset` — one `np.random.rand(12)` draw of `test_meld.py`. -/
def drawVec (stream : ℕ → ℚ) (offset : ℕ) : Fin 12 → ℚ :=
  fun i => stream (offset + i.val)

/-- The fixed sequence `np.arange(12)` that `FakeStructDisps` assigns
over its random draw in `test_meld.py`. -/
def arange12 : Fin 12 → ℚ := fun i => (i.val : ℚ)

/-- The four nodal fields produced by the fake components of
`test_meld.py`. -/
structure TestFields where
  x_aero : Fin 12 → ℚ
  x_struct0 : Fin 12 → ℚ
  u_struct : Fin 12 → ℚ
  f_aero : Fin 12 → ℚ

/-- Embedded from `test_meld.py` `setUp`: after `np.random.seed(0)` the
components are constructed in order `aero_mesh`, `struct_mesh`,
`struct_disps`, `aero_loads`, each drawing 12 values from the seeded
stream; `FakeStructDisps` draws its 12 values (offsets 24–35, consumed
from the stream) but then overwrites them with `np.arange(12)`, so
`u_struct` is the fixed ramp independent of the stream. -/
def setUpFields (stream : ℕ → ℚ) : TestFields :=
  { x_aero := drawVec stream 0
    x_struct0 := drawVec stream 12
    u_struct := arange12
    f_aero := drawVec stream 36 }

/-- The transfer scheme the test builds: reference surface `x_aero` and
the TransferMap precomputed from the two meshes. -/
def testXfer (stream : ℕ → ℚ) : TransferScheme 12 12 :=
  ⟨(setUpFields stream).x_aero,
    dispMatrix (setUpFields stream).x_aero (setUpFields stream).x_struct0⟩

/-- The outputs of the two transfer components of the test model. -/
structure TestOutputs where
  x_a : Fin 12 → ℚ
  f_s : Fin 12 → ℚ

/-- Embedded from `test_meld.py` `test_run_model`: evaluate the model —
the deformed aerodynamic surface from `disp_xfer` and the structural
loads from `load_xfer`; in the exact model every evaluation is total, so
the run returns a value (no exception). -/
def runTestModel (stream : ℕ → ℚ) : Option TestOutputs :=
  some ⟨transfer_displacements (testXfer stream) (setUpFields stream).u_struct,
    transfer_loads (testXfer stream) (setUpFields stream).f_aero⟩

/-- The exact difference-quotient reference derivative used in place of
`check_partials`' finite-difference reference: for the affine maps of
the model a unit step is exact. -/
def fdEntry (f : (Fin 12 → ℚ) → Fin 12 → ℚ) (x0 : Fin 12 → ℚ)
    (i j : Fin 12) : ℚ :=
  f (x0 + Pi.single j 1) i - f x0 i

/-- Embedded from `test_meld.py` `test_derivatives` (lines 146-148):
forward-mode errors are asserted only when the input variable is
`f_aero` or `u_struct`. -/
def checkForward (input : String) : Bool :=
  input == "f_aero" || input == "u_struct"

/-- The `check_partials`-style acceptance predicate for one
(output, input) pair whose linearization is `J`: the reverse-mode
(adjoint) derivative always matches the reference within `5e-6`, and the
forward-mode (tangent) derivative matches whenever the pair is
forward-checked. -/
def pairOK (J : Matrix (Fin 12) (Fin 12) ℚ)
    (f : (Fin 12 → ℚ) → Fin 12 → ℚ) (x0 : Fin 12 → ℚ) (fwd : Bool) :
    Prop :=
  (∀ i j, relErr (adjointDerivative J i j) (fdEntry f x0 i j) < (5e-6 : ℚ)) ∧
    (fwd = true →
      ∀ i j, relErr (tangentDerivative J i j) (fdEntry f x0 i j) <
        (5e-6 : ℚ))

/-- Embedded from `test_meld.py` `test_derivatives`: the assertion loop
over every (output, input) pair of the two transfer components —
`disp_xfer` with inputs `x_aero0`, `x_struct0`, `u_struct` and
`load_xfer` with inputs `x_aero0`, `x_struct0`, `u_struct`, `f_aero` —
with the forward-mode check gated by `checkForward` on the input name. -/
def testDerivativesPass (stream : ℕ → ℚ) : Prop :=
  pairOK 1 (fun x => x + (testXfer stream).map *ᵥ (setUpFields stream).u_struct)
      (setUpFields stream).x_aero (checkForward "x_aero0") ∧
    pairOK 0 (fun _ => transfer_displacements (testXfer stream)
        (setUpFields stream).u_struct)
      (setUpFields stream).x_struct0 (checkForward "x_struct0") ∧
    pairOK (testXfer stream).map (transfer_displacements (testXfer stream))
      (setUpFields stream).u_struct (checkForward "u_struct") ∧
    pairOK 0 (fun _ => transfer_loads (testXfer stream)
        (setUpFields stream).f_aero)
      (setUpFields stream).x_aero (checkForward "x_aero0") ∧
    pairOK 0 (fun _ => transfer_loads (testXfer stream)
        (setUpFields stream).f_aero)
      (setUpFields stream).x_struct0 (checkForward "x_struct0") ∧
    pairOK 0 (fun _ => transfer_loads (testXfer stream)
        (setUpFields stream).f_aero)
      (setUpFields stream).u_struct (checkForward "u_struct") ∧
    pairOK (testXfer stream).mapᵀ (transfer_loads (testXfer stream))
      (setUpFields stream).f_aero (checkForward "f_aero")

/-- A concrete 1×1 transfer scheme used by the closed witnesses. -/
def sampleXfer : TransferScheme 1 1 :=
  ⟨fun _ => 2, fun _ _ => 3⟩

/-! ## Theorems -/

/-- Claim C1: for every structural displacement field `u_s` and every
aerodynamic load field `f_a`, the transfer scheme conserves virtual work:
`u_s ⬝ transfer_loads f_a` equals the inner product of the linearized
transferred displacement `transfer_displacements u_s - x_a0` with `f_a`.
In the exact-arithmetic model the equality is exact, hence within any
floating-point tolerance. -/
theorem work_conservation {na ns : ℕ} (T : TransferScheme na ns)
    (u_s : Fin ns → ℚ) (f_a : Fin na → ℚ) :
    u_s ⬝ᵥ transfer_loads T f_a =
      (transfer_displacements T u_s - T.x_a0) ⬝ᵥ f_a := by
  have h1 : transfer_displacements T u_s - T.x_a0 = T.map *ᵥ u_s := by
    simp [transfer_displacements]
  rw [h1, transfer_loads, mulVec_transpose, dotProduct_comm u_s,
    dotProduct_comm _ f_a, ← dotProduct_mulVec]

/-- Witness for C1: work conservation at a concrete 1×1 scheme with
displacement `5` and load `7`. -/
theorem work_conservation_witness :
    (fun _ => (5 : ℚ)) ⬝ᵥ transfer_loads sampleXfer (fun _ => 7) =
      (transfer_displacements sampleXfer (fun _ => 5) - sampleXfer.x_a0) ⬝ᵥ
        (fun _ => 7) :=
  work_conservation sampleXfer (fun _ => 5) (fun _ => 7)

/-- Claim C6: applying `transfer_displacements` to the zero displacement
field returns exactly the reference aerodynamic surface coordinates
`x_a0` (identity at the reference configuration). -/
theorem identity_at_reference {na ns : ℕ} (T : TransferScheme na ns) :
    transfer_displacements T 0 = T.x_a0 := by
  simp [transfer_displacements]

/-- Witness for C6: the identity at the reference configuration for the
concrete 1×1 scheme. -/
theorem identity_at_reference_witness :
    transfer_displacements sampleXfer 0 = sampleXfer.x_a0 :=
  identity_at_reference sampleXfer

theorem relErr_self (a : ℚ) : relErr a a = 0 := by
  simp [relErr]

/-- Claim C2: for each coupling-variable pair (output `i`, input `j`) of
the coupling graph with linearized coupling map `J`, the reverse-mode
(adjoint) and forward-mode (tangent) total derivatives agree:
`|adjoint - tangent| / max(1, |tangent|) < 5e-6`.  In the
exact-arithmetic model the two modes agree exactly. -/
theorem derivative_agreement {m n : ℕ} (J : Matrix (Fin m) (Fin n) ℚ)
    (i : Fin m) (j : Fin n) :
    relErr (adjointDerivative J i j) (tangentDerivative J i j) <
      (5e-6 : ℚ) := by
  have h : adjointDerivative J i j = tangentDerivative J i j := by
    simp [adjointDerivative, tangentDerivative]
  rw [h, relErr_self]
  norm_num

/-- Witness for C2: derivative agreement on the concrete 1×1 coupling
map. -/
theorem derivative_agreement_witness :
    relErr (adjointDerivative sampleXfer.map 0 0)
        (tangentDerivative sampleXfer.map 0 0) < (5e-6 : ℚ) :=
  derivative_agreement sampleXfer.map 0 0

/-- Claim C4: the solver transitions from `iterating` to `converged`
exactly when the residual norm satisfies `r < rtol * r0` or `r < atol`,
for every configurable pair of tolerances (in particular tolerances as
tight as `1e-14`). -/
theorem converged_iff (opts : SolverOptions) (r0 : ℚ) (i : ℕ) (r rNew : ℚ) :
    (∃ j, stepState opts r0 (.iterating i r) rNew = .converged j rNew) ↔
      (rNew < opts.rtol * r0 ∨ rNew < opts.atol) := by
  simp only [stepState, convergedQ, Bool.or_eq_true, decide_eq_true_eq]
  constructor
  · rintro ⟨j, hj⟩
    by_contra hc
    push_neg at hc
    rw [if_neg (by simp [hc.1, hc.2])] at hj
    split at hj <;> simp_all
  · intro h
    exact ⟨i + 1, by rw [if_pos (by simpa using h)]⟩

/-- Witness for C4: with the `1e-14` tolerances of `run_analysis.py` and
a residual of `0` after the first iteration, the transition criterion is
an equivalence at these concrete values. -/
theorem converged_iff_witness :
    (∃ j, stepState ⟨1e-14, 1e-14, 25⟩ 1 (.iterating 0 1) 0 =
        .converged j 0) ↔
      ((0 : ℚ) < (1e-14 : ℚ) * 1 ∨ (0 : ℚ) < (1e-14 : ℚ)) :=
  converged_iff ⟨1e-14, 1e-14, 25⟩ 1 0 1 0

theorem solveLoop_all_unconverged (opts : SolverOptions) (r0 : ℚ)
    (res : ℕ → ℚ) :
    ∀ (fuel i : ℕ) (trace : List ℚ),
      (∀ k, k < fuel → convergedQ opts r0 (res (i + k)) = false) →
      solveLoop opts r0 res fuel i trace =
        .convergenceFailure (i + fuel)
          (trace.reverse ++ (List.range fuel).map (fun k => res (i + k))) := by
  intro fuel
  induction fuel with
  | zero => intro i trace _; simp [solveLoop]
  | succ n ih =>
      intro i trace h
      have h0 : convergedQ opts r0 (res i) = false := by
        simpa using h 0 (Nat.succ_pos n)
      have hrest : ∀ k, k < n → convergedQ opts r0 (res (i + 1 + k)) = false := by
        intro k hk
        have := h (k + 1) (by omega)
        simpa [Nat.add_assoc, Nat.add_comm 1 k] using this
      rw [solveLoop]
      simp only [h0, Bool.false_eq_true, if_false]
      rw [ih (i + 1) (res i :: trace) hrest]
      have hn : i + 1 + n = i + (n + 1) := by omega
      have hmap : (List.range (n + 1)).map (fun k => res (i + k)) =
          res i :: (List.range n).map (fun k => res (i + 1 + k)) := by
        rw [List.range_succ_eq_map]
        simp only [List.map_cons, Nat.add_zero, List.map_map]
        have hfun : ((fun k => res (i + k)) ∘ Nat.succ) =
            fun k => res (i + 1 + k) := by
          funext k
          simp only [Function.comp_apply]
          congr 1
          omega
        rw [hfun]
      rw [hn, hmap]
      simp [List.reverse_cons, List.append_assoc]

/-- Claim C7: whenever the solver reaches the iteration cap `maxiter`
without the convergence criterion ever holding, it terminates in the
`MaxIterExceeded` outcome, reported to the caller as a
`ConvergenceFailure` carrying the full residual trace, and the outcome is
never the success outcome. -/
theorem max_iter_reported (opts : SolverOptions) (r0 : ℚ) (res : ℕ → ℚ)
    (h : ∀ k, k < opts.maxiter → convergedQ opts r0 (res k) = false) :
    runSolve opts r0 res =
        .convergenceFailure opts.maxiter
          ((List.range opts.maxiter).map res) ∧
      ∀ t, runSolve opts r0 res ≠ .success t := by
  have hmain := solveLoop_all_unconverged opts r0 res opts.maxiter 0 []
    (by simpa using h)
  constructor
  · rw [runSolve, hmain]
    simp
  · intro t hcontra
    rw [runSolve, hmain] at hcontra
    exact SolveOutcome.noConfusion hcontra

/-- Witness for C7: with `rtol = atol = 1/2`, initial residual `1` and
constant residual sequence `1`, a cap of 3 iterations is exhausted and
the outcome is the reported failure with trace `[1, 1, 1]`. -/
theorem max_iter_reported_witness :
    runSolve ⟨1/2, 1/2, 3⟩ 1 (fun _ => 1) =
        .convergenceFailure 3 ((List.range 3).map (fun _ => 1)) ∧
      ∀ t, runSolve ⟨1/2, 1/2, 3⟩ 1 (fun _ => 1) ≠ .success t :=
  max_iter_reported ⟨1/2, 1/2, 3⟩ 1 (fun _ => 1) (by
    intro k hk
    simp only [convergedQ, Bool.or_eq_false_iff, decide_eq_false_iff_not]
    norm_num)

/-- Claim C5: for every scenario graph and every coupling-variable name
already bound to a producer, attempting to connect a second, different
producer to that name raises a ConfigurationError and leaves the graph
unmodified. -/
theorem single_writer_invariant (g : ScenarioGraph) (p q v : String)
    (consumerUnits : List String)
    (hbound : producerOf g v = some q) (hneq : q ≠ p) :
    (connectRun g p v consumerUnits).1 =
        .error .singleWriterViolation ∧
      (connectRun g p v consumerUnits).2 = g := by
  have hc : connect g p v consumerUnits = .error .singleWriterViolation := by
    rw [connect, hbound]
    exact if_neg hneq
  constructor <;> rw [connectRun, hc]

/-- Witness for C5: in a graph binding variable `u_struct` to producer
unit `disp`, connecting producer `other` to `u_struct` errors and the
graph is returned unchanged. -/
theorem single_writer_invariant_witness :
    (connectRun ⟨[("u_struct", "disp")], []⟩ "other" "u_struct"
          ["load"]).1 = .error .singleWriterViolation ∧
      (connectRun ⟨[("u_struct", "disp")], []⟩ "other" "u_struct"
          ["load"]).2 = ⟨[("u_struct", "disp")], []⟩ :=
  single_writer_invariant ⟨[("u_struct", "disp")], []⟩ "other" "disp"
    "u_struct" ["load"] rfl (by decide)

/-- Claim C8: for every Builder, requesting a coupling unit before
initialization signals a configuration error, and after `init` has run
with a communicator the unit-producing call succeeds. -/
theorem builder_init_required (b : Builder) (c : Comm) :
    (b.solverState = none →
        get_coupling_unit b = .error .builderNotInitialized) ∧
      ∃ u, get_coupling_unit (b.init c) = .ok u := by
  constructor
  · intro h
    rw [get_coupling_unit, h]
  · exact ⟨⟨b.nnodes, b.ndof, c.rank⟩, rfl⟩

/-- Witness for C8: a fresh 4-node, 3-dof builder errors before
initialization and produces a coupling unit after it. -/
theorem builder_init_required_witness :
    (get_coupling_unit ⟨4, 3, none⟩ = .error .builderNotInitialized) ∧
      ∃ u, get_coupling_unit (Builder.init ⟨4, 3, none⟩ ⟨0⟩) = .ok u :=
  ⟨(builder_init_required ⟨4, 3, none⟩ ⟨0⟩).1 rfl,
    (builder_init_required ⟨4, 3, none⟩ ⟨0⟩).2⟩

/-- Claim C9: one discipline Builder instance may serve multiple
scenarios — adding two scenarios sharing the same aerodynamic,
structural and transfer Builders gives each scenario its own coupled
state, mutating one scenario's state does not leak into the other, and
the Builders (the shared discipline mesh/model state) are retained
unchanged across the scenarios. -/
theorem builders_shared_scenarios_isolated (ab sb xb : Builder)
    (n1 n2 : String) (st : List ℚ) (h : n1 ≠ n2) :
    scenarioState (twoScenarioGraph ab sb xb n1 n2) n1 =
        some (freshScenarioState ab sb) ∧
      scenarioState (twoScenarioGraph ab sb xb n1 n2) n2 =
        some (freshScenarioState ab sb) ∧
      scenarioState (setScenarioState (twoScenarioGraph ab sb xb n1 n2) n1 st)
          n1 = some st ∧
      scenarioState (setScenarioState (twoScenarioGraph ab sb xb n1 n2) n1 st)
          n2 = some (freshScenarioState ab sb) ∧
      (twoScenarioGraph ab sb xb n1 n2).aeroBuilder = ab ∧
      (twoScenarioGraph ab sb xb n1 n2).structBuilder = sb ∧
      (twoScenarioGraph ab sb xb n1 n2).ldxferBuilder = xb ∧
      (setScenarioState (twoScenarioGraph ab sb xb n1 n2) n1 st).aeroBuilder
          = ab ∧
      (setScenarioState (twoScenarioGraph ab sb xb n1 n2) n1 st).structBuilder
          = sb ∧
      (setScenarioState (twoScenarioGraph ab sb xb n1 n2) n1 st).ldxferBuilder
          = xb := by
  have h2 : n2 ≠ n1 := fun hc => h hc.symm
  have hb12 : (n1 == n2) = false := beq_eq_false_iff_ne.mpr h
  have hb21 : (n2 == n1) = false := beq_eq_false_iff_ne.mpr h2
  refine ⟨?_, ?_, ?_, ?_, rfl, rfl, rfl, rfl, rfl, rfl⟩ <;>
    simp [twoScenarioGraph, mphys_add_scenario, setScenarioState,
      scenarioState, List.find?, h, h2, hb12, hb21]

/-- Witness for C9: the `cruise` / `maneuver` pair of scenarios of
`run_analysis.py` with concrete 4-node builders. -/
theorem builders_shared_scenarios_isolated_witness :
    scenarioState (twoScenarioGraph ⟨4, 3, none⟩ ⟨4, 3, none⟩ ⟨0, 0, none⟩
          "cruise" "maneuver") "cruise" =
        some (freshScenarioState ⟨4, 3, none⟩ ⟨4, 3, none⟩) ∧
      scenarioState (twoScenarioGraph ⟨4, 3, none⟩ ⟨4, 3, none⟩ ⟨0, 0, none⟩
          "cruise" "maneuver") "maneuver" =
        some (freshScenarioState ⟨4, 3, none⟩ ⟨4, 3, none⟩) ∧
      scenarioState (setScenarioState (twoScenarioGraph ⟨4, 3, none⟩
          ⟨4, 3, none⟩ ⟨0, 0, none⟩ "cruise" "maneuver") "cruise" [1])
          "cruise" = some [1] ∧
      scenarioState (setScenarioState (twoScenarioGraph ⟨4, 3, none⟩
          ⟨4, 3, none⟩ ⟨0, 0, none⟩ "cruise" "maneuver") "cruise" [1])
          "maneuver" = some (freshScenarioState ⟨4, 3, none⟩ ⟨4, 3, none⟩) ∧
      (twoScenarioGraph ⟨4, 3, none⟩ ⟨4, 3, none⟩ ⟨0, 0, none⟩
          "cruise" "maneuver").aeroBuilder = ⟨4, 3, none⟩ ∧
      (twoScenarioGraph ⟨4, 3, none⟩ ⟨4, 3, none⟩ ⟨0, 0, none⟩
          "cruise" "maneuver").structBuilder = ⟨4, 3, none⟩ ∧
      (twoScenarioGraph ⟨4, 3, none⟩ ⟨4, 3, none⟩ ⟨0, 0, none⟩
          "cruise" "maneuver").ldxferBuilder = ⟨0, 0, none⟩ ∧
      (setScenarioState (twoScenarioGraph ⟨4, 3, none⟩ ⟨4, 3, none⟩
          ⟨0, 0, none⟩ "cruise" "maneuver") "cruise" [1]).aeroBuilder
          = ⟨4, 3, none⟩ ∧
      (setScenarioState (twoScenarioGraph ⟨4, 3, none⟩ ⟨4, 3, none⟩
          ⟨0, 0, none⟩ "cruise" "maneuver") "cruise" [1]).structBuilder
          = ⟨4, 3, none⟩ ∧
      (setScenarioState (twoScenarioGraph ⟨4, 3, none⟩ ⟨4, 3, none⟩
          ⟨0, 0, none⟩ "cruise" "maneuver") "cruise" [1]).ldxferBuilder
          = ⟨0, 0, none⟩ :=
  builders_shared_scenarios_isolated ⟨4, 3, none⟩ ⟨4, 3, none⟩ ⟨0, 0, none⟩
    "cruise" "maneuver" [1] (by decide)

/-- Claim C10: two executions whose pseudo-random streams agree (both
seeded with 0) produce identical nodal fields, and the `u_struct` field
equals the fixed sequence `np.arange(12)` for every stream, independent
of the seed — the unit-test model evaluation is deterministic across
runs. -/
theorem deterministic_test_fields (s1 s2 : ℕ → ℚ)
    (h : ∀ n, s1 n = s2 n) :
    setUpFields s1 = setUpFields s2 ∧
      ∀ s : ℕ → ℚ, (setUpFields s).u_struct = arange12 := by
  refine ⟨?_, fun s => rfl⟩
  have hs : s1 = s2 := funext h
  rw [hs]

/-- Witness for C10: the constant-zero stream compared against itself. -/
theorem deterministic_test_fields_witness :
    setUpFields (fun _ => 0) = setUpFields (fun _ => 0) ∧
      ∀ s : ℕ → ℚ, (setUpFields s).u_struct = arange12 :=
  deterministic_test_fields (fun _ => 0) (fun _ => 0) (fun _ => rfl)

theorem pairOK_affine (J : Matrix (Fin 12) (Fin 12) ℚ) (c : Fin 12 → ℚ)
    (f : (Fin 12 → ℚ) → Fin 12 → ℚ) (hf : ∀ x, f x = c + J *ᵥ x)
    (x0 : Fin 12 → ℚ) (fwd : Bool) : pairOK J f x0 fwd := by
  have hfd : ∀ i j, fdEntry f x0 i j = J i j := by
    intro i j
    simp only [fdEntry, hf, mulVec_add, mulVec_single, Pi.add_apply]
    ring
  have htan : ∀ i j, tangentDerivative J i j = J i j := by
    intro i j
    simp [tangentDerivative]
  have hadj : ∀ i j, adjointDerivative J i j = J i j := by
    intro i j
    simp [adjointDerivative]
  constructor
  · intro i j
    rw [hadj, hfd, relErr_self]
    norm_num
  · intro _ i j
    rw [htan, hfd, relErr_self]
    norm_num

/-- Claim C3: in the end-to-end 4-node aerodynamic / 4-node, 3-dof
structural scenario of `test_meld.py`, for every seeded pseudo-random
stream the model run completes with a value (no exception raised) and
the `check_partials`-style comparison passes: reverse-mode relative
error below `5e-6` for every (output, input) pair and forward-mode
checked (and passing) exactly for the transfer-edge inputs `f_aero` and
`u_struct`. -/
theorem scenario_e2e (stream : ℕ → ℚ) :
    (runTestModel stream).isSome = true ∧ testDerivativesPass stream := by
  refine ⟨rfl, ?_, ?_, ?_, ?_, ?_, ?_, ?_⟩
  · exact pairOK_affine 1 ((testXfer stream).map *ᵥ (setUpFields stream).u_struct)
      _ (fun x => by rw [one_mulVec, add_comm]) _ _
  · exact pairOK_affine 0 (transfer_displacements (testXfer stream)
      (setUpFields stream).u_struct) _ (fun x => by rw [zero_mulVec, add_zero]) _ _
  · exact pairOK_affine (testXfer stream).map ((testXfer stream).x_a0) _
      (fun u => rfl) _ _
  · exact pairOK_affine 0 (transfer_loads (testXfer stream)
      (setUpFields stream).f_aero) _ (fun x => by rw [zero_mulVec, add_zero]) _ _
  · exact pairOK_affine 0 (transfer_loads (testXfer stream)
      (setUpFields stream).f_aero) _ (fun x => by rw [zero_mulVec, add_zero]) _ _
  · exact pairOK_affine 0 (transfer_loads (testXfer stream)
      (setUpFields stream).f_aero) _ (fun x => by rw [zero_mulVec, add_zero]) _ _
  · exact pairOK_affine (testXfer stream).mapᵀ 0 _
      (fun fa => by rw [zero_add]; rfl) _ _

/-- Witness for C3: the end-to-end scenario evaluated on the
constant-zero pseudo-random stream. -/
theorem scenario_e2e_witness :
    (runTestModel (fun _ => 0)).isSome = true ∧
      testDerivativesPass (fun _ => 0) :=
  scenario_e2e (fun _ => 0)

end Mphys
